import Mathlib

/-! Shallow embedding of the p2app engine from src/p2app/engine/main.py.
    SQLite tables are lists of rows of SQL values; each handler is a function
    from engine state and request parameters to the list of events its
    generator yields, the resulting engine state, and the uncaught Python
    exception, when one escapes the handler. -/

/-- A SQL value as stored in a row or bound as a statement parameter. -/
inductive Value where
  | vNull : Value
  | vInt (i : Int) : Value
  | vStr (s : String) : Value
deriving DecidableEq, Repr

/-- A table row, as returned by cursor.fetchone and cursor.fetchall. -/
abbrev Row := List Value

/-- Modelled from the spec: the Continent record of p2app.events (a file of
this repository that is not under src), with the three fields of section 3,
continent_id, continent_code and name; every field is required by the
constructor. -/
structure Continent where
  continent_id : Value
  continent_code : Value
  name : Value
deriving DecidableEq, Repr

/-- Modelled from the spec: the Country record of p2app.events, with the six
fields of section 3; every field is required by the constructor. -/
structure Country where
  country_id : Value
  country_code : Value
  name : Value
  continent_id : Value
  wikipedia_link : Value
  keywords : Value
deriving DecidableEq, Repr

/-- Modelled from the spec: the Region record of p2app.events, with the eight
fields of section 3; every field is required by the constructor, so a
positional construction supplying fewer raises TypeError. -/
structure Region where
  region_id : Value
  region_code : Value
  local_code : Value
  name : Value
  continent_id : Value
  country_id : Value
  wikipedia_link : Value
  keywords : Value
deriving DecidableEq, Repr

/-- A Python exception that a handler may raise or catch. -/
inductive PyErr where
  | sqlErr (msg : String) : PyErr
  | attrErr (missing : String) : PyErr
  | typeErr (msg : String) : PyErr
  | indexErr : PyErr
deriving DecidableEq, Repr

/-- Modelled from the spec: the response events of section 6. Continent is the
only entity with a dedicated saved event; country and region reuse their
loaded events as the save confirmation. -/
inductive Event where
  | databaseOpened (path : String) : Event
  | databaseOpenFailed (msg : String) : Event
  | databaseClosed : Event
  | continentSearchResult (c : Continent) : Event
  | continentLoaded (c : Continent) : Event
  | continentSaved (c : Continent) : Event
  | saveContinentFailed (msg : String) : Event
  | countrySearchResult (c : Country) : Event
  | countryLoaded (c : Country) : Event
  | regionSearchResult (r : Region) : Event
  | regionLoaded (r : Region) : Event
  | saveRegionFailed (msg : String) : Event
  | errorEvent (msg : String) : Event
deriving DecidableEq, Repr

/-- The open SQLite database: the three tables of the schema, plus a fault
oracle modelling the storage engine raising sqlite3.Error (constraint
violation, disk error) on the next statement executed against it. -/
structure Db where
  continents : List Row
  country : List Row
  regions : List Row
  fault : Option String
deriving DecidableEq, Repr

/-- The engine state: the connection attribute set by Engine.init to None,
and the db_path attribute, which no code ever assigns (none models the
attribute being absent, so that reading it raises AttributeError). -/
structure Engine where
  connection : Option Db
  db_path : Option String
deriving DecidableEq, Repr

/-- The engine as built by Engine.init: connection is None and db_path was
never assigned. -/
def initial_engine : Engine := ⟨none, none⟩

/-- The result of driving one handler generator to completion: the events it
yielded, the engine state afterwards, and the uncaught exception if one
escaped (events then lists the yields that happened before the raise). -/
structure HandlerResult where
  events : List Event
  engine : Engine
  exc : Option PyErr
deriving DecidableEq, Repr

/-- Python str() of a SQL value, as f-string interpolation applies it. -/
def pyStr : Value → String
  | .vNull => "None"
  | .vInt i => toString i
  | .vStr s => s

/-- Python row indexing: the value at index i, or an IndexError. -/
def rowGet (r : Row) (i : Nat) : Except PyErr Value :=
  match r.get? i with
  | some v => Except.ok v
  | none => Except.error PyErr.indexErr

/-- The value of column i of a row as the SQL engine sees it (NULL when the
column is absent). -/
def colv (r : Row) (i : Nat) : Value := (r.get? i).getD Value.vNull

/-- Truthiness of an optional string parameter, as the handlers test it with
an if: None and the empty string are falsy. -/
def truthyStr : Option String → Option String
  | some s => if s = "" then none else some s
  | none => none

/-- SQLite equality between a column value and a bound parameter: NULL
compares false to everything, other values compare structurally. -/
def valueSqlEq (c p : Value) : Bool :=
  match c, p with
  | .vNull, _ => false
  | _, .vNull => false
  | c, p => decide (c = p)

/-- ASCII lowercase folding, the case folding SQLite LIKE applies. -/
def lowerAscii (s : String) : String := s.map Char.toLower

/-- SQLite column LIKE ? with a pattern wildcarded on both sides: substring
match after ASCII case folding; an integer column is compared through its
text form and NULL never matches. -/
def valueLike (c : Value) (pat : String) : Bool :=
  match c with
  | .vStr s => decide ((lowerAscii pat).data <:+: (lowerAscii s).data)
  | .vInt i => decide ((lowerAscii pat).data <:+: (toString i).data)
  | .vNull => false

/-- One folding step of the largest integer primary key of a table. -/
def idStep (m : Int) (r : Row) : Int :=
  match r.get? 0 with
  | some (.vInt i) => max m i
  | _ => m

/-- The rowid SQLite assigns to a newly inserted row and reports as
cursor.lastrowid: one more than the largest integer primary key present
(1 for an empty table). -/
def nextId (t : List Row) : Int := t.foldl idStep 0 + 1

/-- Test of WHERE pk = ? against one row: column 0 equals the bound
identifier under SQL comparison. -/
def rowKeyIs (r : Row) (idv : Value) : Bool := valueSqlEq (colv r 0) idv

/-- cursor.fetchone for SELECT * FROM t WHERE pk = ?: the first matching
row, if any. -/
def findRow (t : List Row) (idv : Value) : Option Row :=
  t.find? (fun r => rowKeyIs r idv)

/-- One yield per fetched row: the events produced before the first per-row
exception, and that exception when one occurs. -/
def yieldRows (rows : List Row) (f : Row → Except PyErr Event) :
    List Event × Option PyErr :=
  match rows with
  | [] => ([], none)
  | r :: rs =>
    match f r with
    | Except.error e => ([], some e)
    | Except.ok ev =>
      let p := yieldRows rs f
      (ev :: p.1, p.2)

/-- The call Continent(row[0], row[1], row[2]) of search_continents and
load_continent. -/
def continent_of_row (r : Row) : Except PyErr Continent := do
  let a ← rowGet r 0
  let b ← rowGet r 1
  let c ← rowGet r 2
  pure ⟨a, b, c⟩

/-- Calling the Country constructor on a positional argument list: all six
fields are required, any other arity raises TypeError. -/
def mkCountryArgs (args : List Value) : Except PyErr Country :=
  match args with
  | [a, b, c, d, e, f] => Except.ok ⟨a, b, c, d, e, f⟩
  | _ => Except.error (PyErr.typeErr "Country() arity mismatch")

/-- Calling the Region constructor on a positional argument list: all eight
fields are required, any other arity raises TypeError. -/
def mkRegionArgs (args : List Value) : Except PyErr Region :=
  match args with
  | [a, b, c, d, e, f, g, h] => Except.ok ⟨a, b, c, d, e, f, g, h⟩
  | _ => Except.error (PyErr.typeErr "Region() arity mismatch")

/-- The call Country(row[0], ..., row[5]) of search_countries. -/
def country_of_row (r : Row) : Except PyErr Country := do
  let a ← rowGet r 0
  let b ← rowGet r 1
  let c ← rowGet r 2
  let d ← rowGet r 3
  let e ← rowGet r 4
  let f ← rowGet r 5
  mkCountryArgs [a, b, c, d, e, f]

/-- The per-row body of search_regions: the call
Region(row[0], row[1], row[2], row[3], row[4], row[5], row[6]), which
supplies only seven of the eight required fields, wrapped as a search-result
event when it succeeds. -/
def region_search_item (r : Row) : Except PyErr Event := do
  let a ← rowGet r 0
  let b ← rowGet r 1
  let c ← rowGet r 2
  let d ← rowGet r 3
  let e ← rowGet r 4
  let f ← rowGet r 5
  let g ← rowGet r 6
  (mkRegionArgs [a, b, c, d, e, f, g]).map Event.regionSearchResult

/-- The conjunctive WHERE clause search_continents builds: continent_code
exact when supplied, name LIKE wildcarded when supplied. -/
def continent_where (code nm : Option String) (r : Row) : Bool :=
  (match truthyStr code with
   | some c => valueSqlEq (colv r 1) (Value.vStr c)
   | none => true)
  && (match truthyStr nm with
   | some n => valueLike (colv r 2) n
   | none => true)

/-- The conjunctive WHERE clause search_countries builds: country_code exact
when supplied, name LIKE wildcarded when supplied. -/
def country_where (code nm : Option String) (r : Row) : Bool :=
  (match truthyStr code with
   | some c => valueSqlEq (colv r 1) (Value.vStr c)
   | none => true)
  && (match truthyStr nm with
   | some n => valueLike (colv r 2) n
   | none => true)

/-- The conjunctive WHERE clause search_regions builds: region_code and
local_code exact when supplied, name LIKE wildcarded when supplied. -/
def region_where (code lc nm : Option String) (r : Row) : Bool :=
  (match truthyStr code with
   | some c => valueSqlEq (colv r 1) (Value.vStr c)
   | none => true)
  && (match truthyStr lc with
   | some l => valueSqlEq (colv r 2) (Value.vStr l)
   | none => true)
  && (match truthyStr nm with
   | some n => valueLike (colv r 3) n
   | none => true)

/-- Engine.open_database: tries to connect (the connect oracle stands for
sqlite3.connect succeeding with a database or raising sqlite3.Error), assigns
the connection on success, then yields DatabaseOpenedEvent(self.db_path);
reading the never-assigned db_path attribute raises AttributeError, which the
except clause for sqlite3.Error does not catch. A connect failure is caught
and yields DatabaseOpenFailedEvent with the message. -/
def open_database (eng : Engine) (path : Option String)
    (connectRes : Except String Db) : HandlerResult :=
  match truthyStr path with
  | some _ =>
    match connectRes with
    | Except.error m => ⟨[Event.databaseOpenFailed m], eng, none⟩
    | Except.ok db =>
      let eng2 : Engine := { eng with connection := some db }
      match eng2.db_path with
      | none => ⟨[], eng2, some (PyErr.attrErr "db_path")⟩
      | some p => ⟨[Event.databaseOpened p], eng2, none⟩
  | none =>
    match eng.db_path with
    | none => ⟨[], eng, some (PyErr.attrErr "db_path")⟩
    | some _ =>
      match connectRes with
      | Except.error m => ⟨[Event.databaseOpenFailed m], eng, none⟩
      | Except.ok db =>
        let eng2 : Engine := { eng with connection := some db }
        match eng2.db_path with
        | none => ⟨[], eng2, some (PyErr.attrErr "db_path")⟩
        | some p => ⟨[Event.databaseOpened p], eng2, none⟩

/-- Engine.close_database: when a connection is open, close it, clear the
handle and yield DatabaseClosedEvent; otherwise yield nothing. -/
def close_database (eng : Engine) : HandlerResult :=
  match eng.connection with
  | some _ => ⟨[Event.databaseClosed], { eng with connection := none }, none⟩
  | none => ⟨[], eng, none⟩

/-- Engine.search_continents: guarded on the connection, builds the
conjunctive filter, executes (no try around it, so a storage fault raises
uncaught) and yields one ContinentSearchResultEvent per fetched row. -/
def search_continents (eng : Engine) (code nm : Option String) : HandlerResult :=
  match eng.connection with
  | none => ⟨[], eng, none⟩
  | some db =>
    match db.fault with
    | some m => ⟨[], eng, some (PyErr.sqlErr m)⟩
    | none =>
      let p := yieldRows (db.continents.filter (continent_where code nm))
        (fun r => (continent_of_row r).map Event.continentSearchResult)
      ⟨p.1, eng, p.2⟩

/-- Engine.load_continent: guarded on the connection, fetches one row by
continent_id; found yields ContinentLoadedEvent, not found yields an
ErrorEvent naming the identifier. No try, so a storage fault raises. -/
def load_continent (eng : Engine) (idv : Value) : HandlerResult :=
  match eng.connection with
  | none => ⟨[], eng, none⟩
  | some db =>
    match db.fault with
    | some m => ⟨[], eng, some (PyErr.sqlErr m)⟩
    | none =>
      match findRow db.continents idv with
      | some r =>
        match continent_of_row r with
        | Except.ok c => ⟨[Event.continentLoaded c], eng, none⟩
        | Except.error e => ⟨[], eng, some e⟩
      | none =>
        ⟨[Event.errorEvent ("Continent with ID " ++ pyStr idv ++ " not found")],
         eng, none⟩

/-- Engine.save_new_continent: guarded on the connection; the insert is
wrapped in try, a storage fault is caught and yields
SaveContinentFailedEvent; on success it appends the row under the assigned
rowid and yields ContinentSavedEvent built from the inserted values and the
new identifier. -/
def save_new_continent (eng : Engine) (c : Continent) : HandlerResult :=
  match eng.connection with
  | none => ⟨[], eng, none⟩
  | some db =>
    match db.fault with
    | some m => ⟨[Event.saveContinentFailed m], eng, none⟩
    | none =>
      let nid := nextId db.continents
      let db2 : Db := { db with
        continents := db.continents ++ [[Value.vInt nid, c.continent_code, c.name]] }
      ⟨[Event.continentSaved ⟨Value.vInt nid, c.continent_code, c.name⟩],
       { eng with connection := some db2 }, none⟩

/-- The row an UPDATE of the continents table leaves behind when the WHERE
clause matched: the primary key kept, the two data columns replaced. -/
def updContinentRow (c : Continent) (r : Row) : Row :=
  match r with
  | a :: _ => [a, c.continent_code, c.name]
  | [] => []

/-- Engine.save_continent: guarded on the connection; the update is wrapped
in try, a storage fault is caught and yields SaveContinentFailedEvent; on
success it updates every row matching the submitted identifier and yields
ContinentSavedEvent carrying the submitted record itself, with no reload. -/
def save_continent (eng : Engine) (c : Continent) : HandlerResult :=
  match eng.connection with
  | none => ⟨[], eng, none⟩
  | some db =>
    match db.fault with
    | some m => ⟨[Event.saveContinentFailed m], eng, none⟩
    | none =>
      let db2 : Db := { db with
        continents := db.continents.map
          (fun r => if rowKeyIs r c.continent_id then updContinentRow c r else r) }
      ⟨[Event.continentSaved c], { eng with connection := some db2 }, none⟩

/-- Engine.search_countries: guarded on the connection, builds the
conjunctive filter, executes (no try, a storage fault raises uncaught) and
yields one CountrySearchResultEvent per fetched row. -/
def search_countries (eng : Engine) (code nm : Option String) : HandlerResult :=
  match eng.connection with
  | none => ⟨[], eng, none⟩
  | some db =>
    match db.fault with
    | some m => ⟨[], eng, some (PyErr.sqlErr m)⟩
    | none =>
      let p := yieldRows (db.country.filter (country_where code nm))
        country_of_row_event
      ⟨p.1, eng, p.2⟩
where
  country_of_row_event (r : Row) : Except PyErr Event :=
    (country_of_row r).map Event.countrySearchResult

/-- Engine.load_country: guarded on the connection, fetches one row by
country_id; found yields CountryLoadedEvent built by star-unpacking the whole
row, not found yields an ErrorEvent naming the identifier. No try, so a
storage fault raises. -/
def load_country (eng : Engine) (idv : Value) : HandlerResult :=
  match eng.connection with
  | none => ⟨[], eng, none⟩
  | some db =>
    match db.fault with
    | some m => ⟨[], eng, some (PyErr.sqlErr m)⟩
    | none =>
      match findRow db.country idv with
      | some r =>
        match mkCountryArgs r with
        | Except.ok c => ⟨[Event.countryLoaded c], eng, none⟩
        | Except.error e => ⟨[], eng, some e⟩
      | none =>
        ⟨[Event.errorEvent ("Country with ID " ++ pyStr idv ++ " not found")],
         eng, none⟩

/-- The row INSERT INTO country writes: the assigned rowid followed by the
five submitted data columns. -/
def countryRowOf (nid : Int) (c : Country) : Row :=
  [Value.vInt nid, c.country_code, c.name, c.continent_id,
   c.wikipedia_link, c.keywords]

/-- Engine.save_new_country: guarded on the connection but with no try at
all, so a storage fault raises uncaught; on success it appends the row under
the assigned rowid and delegates the reload to load_country with that
identifier. -/
def save_new_country (eng : Engine) (c : Country) : HandlerResult :=
  match eng.connection with
  | none => ⟨[], eng, none⟩
  | some db =>
    match db.fault with
    | some m => ⟨[], eng, some (PyErr.sqlErr m)⟩
    | none =>
      let nid := nextId db.country
      let db2 : Db := { db with country := db.country ++ [countryRowOf nid c] }
      load_country { eng with connection := some db2 } (Value.vInt nid)

/-- The row an UPDATE of the country table leaves behind when the WHERE
clause matched: the primary key kept, the five data columns replaced. -/
def updCountryRow (c : Country) (r : Row) : Row :=
  match r with
  | a :: _ => [a, c.country_code, c.name, c.continent_id,
               c.wikipedia_link, c.keywords]
  | [] => []

/-- Engine.save_country: guarded on the connection but with no try at all,
so a storage fault raises uncaught; on success it updates every row matching
the submitted identifier and delegates the reload to load_country with the
submitted identifier. -/
def save_country (eng : Engine) (c : Country) : HandlerResult :=
  match eng.connection with
  | none => ⟨[], eng, none⟩
  | some db =>
    match db.fault with
    | some m => ⟨[], eng, some (PyErr.sqlErr m)⟩
    | none =>
      let db2 : Db := { db with
        country := db.country.map
          (fun r => if rowKeyIs r c.country_id then updCountryRow c r else r) }
      load_country { eng with connection := some db2 } c.country_id

/-- Engine.search_regions: guarded on the connection; the execute and the
yield loop sit in a try whose except clause catches only sqlite3.Error, so a
storage fault yields an ErrorEvent while the TypeError of the per-row Region
construction escapes uncaught. -/
def search_regions (eng : Engine) (code lc nm : Option String) : HandlerResult :=
  match eng.connection with
  | none => ⟨[], eng, none⟩
  | some db =>
    match db.fault with
    | some m => ⟨[Event.errorEvent m], eng, none⟩
    | none =>
      let p := yieldRows (db.regions.filter (region_where code lc nm))
        region_search_item
      match p.2 with
      | some (PyErr.sqlErr m) => ⟨p.1 ++ [Event.errorEvent m], eng, none⟩
      | e => ⟨p.1, eng, e⟩

/-- Engine.load_region: guarded on the connection; the fetch sits in a try
whose except clause catches only sqlite3.Error, so a storage fault yields an
ErrorEvent. Found yields RegionLoadedEvent built by star-unpacking the whole
row, not found yields an ErrorEvent naming the identifier. -/
def load_region (eng : Engine) (idv : Value) : HandlerResult :=
  match eng.connection with
  | none => ⟨[], eng, none⟩
  | some db =>
    match db.fault with
    | some m => ⟨[Event.errorEvent m], eng, none⟩
    | none =>
      match findRow db.regions idv with
      | some r =>
        match mkRegionArgs r with
        | Except.ok rg => ⟨[Event.regionLoaded rg], eng, none⟩
        | Except.error e => ⟨[], eng, some e⟩
      | none =>
        ⟨[Event.errorEvent ("Region with ID " ++ pyStr idv ++ " not found")],
         eng, none⟩

/-- The row INSERT INTO regions writes: the assigned rowid followed by the
seven submitted data columns. -/
def regionRowOf (nid : Int) (rg : Region) : Row :=
  [Value.vInt nid, rg.region_code, rg.local_code, rg.name, rg.continent_id,
   rg.country_id, rg.wikipedia_link, rg.keywords]

/-- Engine.save_new_region: guarded on the connection; the insert and the
delegated reload sit in a try whose except clause catches only
sqlite3.Error, yielding SaveRegionFailedEvent; on success it appends the row
under the assigned rowid and delegates the reload to load_region. -/
def save_new_region (eng : Engine) (rg : Region) : HandlerResult :=
  match eng.connection with
  | none => ⟨[], eng, none⟩
  | some db =>
    match db.fault with
    | some m => ⟨[Event.saveRegionFailed m], eng, none⟩
    | none =>
      let nid := nextId db.regions
      let db2 : Db := { db with regions := db.regions ++ [regionRowOf nid rg] }
      let res := load_region { eng with connection := some db2 } (Value.vInt nid)
      match res.exc with
      | some (PyErr.sqlErr m) =>
        ⟨res.events ++ [Event.saveRegionFailed m], res.engine, none⟩
      | e => ⟨res.events, res.engine, e⟩

/-- The row an UPDATE of the regions table leaves behind when the WHERE
clause matched: the primary key kept, the seven data columns replaced. -/
def updRegionRow (rg : Region) (r : Row) : Row :=
  match r with
  | a :: _ => [a, rg.region_code, rg.local_code, rg.name, rg.continent_id,
               rg.country_id, rg.wikipedia_link, rg.keywords]
  | [] => []

/-- Engine.save_region: guarded on the connection; the update and the
delegated reload sit in a try whose except clause catches only
sqlite3.Error, yielding SaveRegionFailedEvent; on success it updates every
row matching the submitted identifier and delegates the reload to
load_region with the submitted identifier. -/
def save_region (eng : Engine) (rg : Region) : HandlerResult :=
  match eng.connection with
  | none => ⟨[], eng, none⟩
  | some db =>
    match db.fault with
    | some m => ⟨[Event.saveRegionFailed m], eng, none⟩
    | none =>
      let db2 : Db := { db with
        regions := db.regions.map
          (fun r => if rowKeyIs r rg.region_id then updRegionRow rg r else r) }
      let res := load_region { eng with connection := some db2 } rg.region_id
      match res.exc with
      | some (PyErr.sqlErr m) =>
        ⟨res.events ++ [Event.saveRegionFailed m], res.engine, none⟩
      | e => ⟨res.events, res.engine, e⟩

/-- Modelled from the spec: the request events of section 6, as dispatched
by Engine.process_event. -/
inductive Request where
  | openDatabaseReq (path : Option String) : Request
  | closeDatabaseReq : Request
  | startContinentSearch (continent_code nm : Option String) : Request
  | loadContinentReq (continent_id : Value) : Request
  | saveNewContinentReq (c : Continent) : Request
  | saveContinentReq (c : Continent) : Request
  | startCountrySearch (country_code nm : Option String) : Request
  | loadCountryReq (country_id : Value) : Request
  | saveNewCountryReq (c : Country) : Request
  | saveCountryReq (c : Country) : Request
  | startRegionSearch (region_code local_code nm : Option String) : Request
  | loadRegionReq (region_id : Value) : Request
  | saveNewRegionReq (rg : Region) : Request
  | saveRegionReq (rg : Region) : Request
deriving DecidableEq, Repr

/-- Engine.process_event: routes one request to its handler; the connect
oracle is consulted only by open_database. -/
def process_event (eng : Engine) (req : Request)
    (connectRes : Except String Db) : HandlerResult :=
  match req with
  | .openDatabaseReq p => open_database eng p connectRes
  | .closeDatabaseReq => close_database eng
  | .startContinentSearch code nm => search_continents eng code nm
  | .loadContinentReq idv => load_continent eng idv
  | .saveNewContinentReq c => save_new_continent eng c
  | .saveContinentReq c => save_continent eng c
  | .startCountrySearch code nm => search_countries eng code nm
  | .loadCountryReq idv => load_country eng idv
  | .saveNewCountryReq c => save_new_country eng c
  | .saveCountryReq c => save_country eng c
  | .startRegionSearch code lc nm => search_regions eng code lc nm
  | .loadRegionReq idv => load_region eng idv
  | .saveNewRegionReq rg => save_new_region eng rg
  | .saveRegionReq rg => save_region eng rg

/-- Schema well-formedness: every stored row has exactly the column count of
its table in the persisted schema of section 6. -/
def wf_db (db : Db) : Bool :=
  db.continents.all (fun r => r.length == 3)
  && db.country.all (fun r => r.length == 6)
  && db.regions.all (fun r => r.length == 8)

/-! Shared lemmas about the embedding. -/

lemma foldl_idStep_le (t : List Row) : ∀ a : Int, a ≤ t.foldl idStep a := by
  induction t with
  | nil => intro a; simp
  | cons r t ih =>
    intro a
    have h1 : a ≤ idStep a r := by
      unfold idStep
      split
    
      case _ i _ => exact le_max_left a i
      case _ => exact le_refl a
    calc a ≤ idStep a r := h1
      _ ≤ (r :: t).foldl idStep a := by rw [List.foldl_cons]; exact ih (idStep a r)

lemma mem_foldl_idStep_le (t : List Row) : ∀ (a : Int) (r : Row), r ∈ t →
    ∀ i : Int, r.get? 0 = some (Value.vInt i) → i ≤ t.foldl idStep a := by
  induction t with
  | nil => intro a r hr; cases hr
  | cons s t ih =>
    intro a r hr i h0
    rw [List.foldl_cons]
    rcases List.mem_cons.mp hr with h | h
    · subst h
      have h1 : i ≤ idStep a r := by unfold idStep; rw [h0]; exact le_max_right a i
      exact le_trans h1 (foldl_idStep_le t (idStep a r))
    · exact ih (idStep a s) r h i h0

lemma rowKeyIs_nextId (t : List Row) (r : Row) (hr : r ∈ t) :
    rowKeyIs r (Value.vInt (nextId t)) = false := by
  unfold rowKeyIs colv
  cases h0 : r.get? 0 with
  | none => simp [valueSqlEq]
  | some v =>
    cases v with
    | vNull => simp [valueSqlEq]
    | vStr s => simp [valueSqlEq]
    | vInt i =>
      have hle : i ≤ t.foldl idStep 0 := mem_foldl_idStep_le t 0 r hr i h0
      have hne : ¬ (Value.vInt i = Value.vInt (nextId t)) := by
        intro he
        have : i = nextId t := by injection he
        unfold nextId at this
        omega
      simp [valueSqlEq, hne]

lemma findRow_append_fresh (t : List Row) (row : Row) (idv : Value)
    (hfresh : ∀ r ∈ t, rowKeyIs r idv = false)
    (hrow : rowKeyIs row idv = true) :
    findRow (t ++ [row]) idv = some row := by
  induction t with
  | nil => simp [findRow, List.find?, hrow]
  | cons a t ih =>
    have ha : rowKeyIs a idv = false := hfresh a (List.mem_cons_self a t)
    have iht := ih (fun r hr => hfresh r (List.mem_cons_of_mem a hr))
    simp only [findRow] at iht ⊢
    rw [List.cons_append, List.find?_cons_of_neg _ (by simp [ha])]
    exact iht

lemma row_of_length_six (r : Row) (h : r.length = 6) :
    ∃ a b c d e f, r = [a, b, c, d, e, f] := by
  obtain ⟨a, r, rfl⟩ := List.exists_of_length_succ r h
  replace h : r.length = 5 := by simp only [List.length_cons] at h; omega
  obtain ⟨b, r, rfl⟩ := List.exists_of_length_succ r h
  replace h : r.length = 4 := by simp only [List.length_cons] at h; omega
  obtain ⟨c, r, rfl⟩ := List.exists_of_length_succ r h
  replace h : r.length = 3 := by simp only [List.length_cons] at h; omega
  obtain ⟨d, r, rfl⟩ := List.exists_of_length_succ r h
  replace h : r.length = 2 := by simp only [List.length_cons] at h; omega
  obtain ⟨e, r, rfl⟩ := List.exists_of_length_succ r h
  replace h : r.length = 1 := by simp only [List.length_cons] at h; omega
  obtain ⟨f, r, rfl⟩ := List.exists_of_length_succ r h
  replace h : r.length = 0 := by simp only [List.length_cons] at h; omega
  have hnil : r = [] := List.length_eq_zero.mp h
  subst hnil
  exact ⟨a, b, c, d, e, f, rfl⟩

lemma row_of_length_eight (r : Row) (h : r.length = 8) :
    ∃ a b c d e f g k, r = [a, b, c, d, e, f, g, k] := by
  obtain ⟨a, r, rfl⟩ := List.exists_of_length_succ r h
  replace h : r.length = 7 := by simp only [List.length_cons] at h; omega
  obtain ⟨b, r, rfl⟩ := List.exists_of_length_succ r h
  replace h : r.length = 6 := by simp only [List.length_cons] at h; omega
  obtain ⟨c, r, rfl⟩ := List.exists_of_length_succ r h
  replace h : r.length = 5 := by simp only [List.length_cons] at h; omega
  obtain ⟨d, r, rfl⟩ := List.exists_of_length_succ r h
  replace h : r.length = 4 := by simp only [List.length_cons] at h; omega
  obtain ⟨e, r, rfl⟩ := List.exists_of_length_succ r h
  replace h : r.length = 3 := by simp only [List.length_cons] at h; omega
  obtain ⟨f, r, rfl⟩ := List.exists_of_length_succ r h
  replace h : r.length = 2 := by simp only [List.length_cons] at h; omega
  obtain ⟨g, r, rfl⟩ := List.exists_of_length_succ r h
  replace h : r.length = 1 := by simp only [List.length_cons] at h; omega
  obtain ⟨k, r, rfl⟩ := List.exists_of_length_succ r h
  replace h : r.length = 0 := by simp only [List.length_cons] at h; omega
  have hnil : r = [] := List.length_eq_zero.mp h
  subst hnil
  exact ⟨a, b, c, d, e, f, g, k, rfl⟩

lemma wf_db_continents (db : Db) (h : wf_db db = true) :
    ∀ r ∈ db.continents, r.length = 3 := by
  unfold wf_db at h
  simp only [Bool.and_eq_true, List.all_eq_true, beq_iff_eq] at h
  exact h.1.1

lemma wf_db_country (db : Db) (h : wf_db db = true) :
    ∀ r ∈ db.country, r.length = 6 := by
  unfold wf_db at h
  simp only [Bool.and_eq_true, List.all_eq_true, beq_iff_eq] at h
  exact h.1.2

lemma wf_db_regions (db : Db) (h : wf_db db = true) :
    ∀ r ∈ db.regions, r.length = 8 := by
  unfold wf_db at h
  simp only [Bool.and_eq_true, List.all_eq_true, beq_iff_eq] at h
  exact h.2

lemma continent_of_row_triple (a b c : Value) :
    continent_of_row [a, b, c] = Except.ok ⟨a, b, c⟩ := rfl

lemma mkCountryArgs_of_length_six (r : Row) (h : r.length = 6) :
    ∃ c, mkCountryArgs r = Except.ok c := by
  obtain ⟨a, b, c, d, e, f, rfl⟩ := row_of_length_six r h
  exact ⟨⟨a, b, c, d, e, f⟩, rfl⟩

lemma mkRegionArgs_of_length_eight (r : Row) (h : r.length = 8) :
    ∃ rg, mkRegionArgs r = Except.ok rg := by
  obtain ⟨a, b, c, d, e, f, g, k, rfl⟩ := row_of_length_eight r h
  exact ⟨⟨a, b, c, d, e, f, g, k⟩, rfl⟩

/-! Concrete sample data used by witnesses and counterexamples. -/

/-- An empty well-formed database. -/
def db0 : Db := ⟨[], [], [], none⟩

/-- A database holding one continent row. -/
def dbOneContinent : Db :=
  ⟨[[Value.vInt 1, Value.vStr "AS", Value.vStr "Asia"]], [], [], none⟩

/-- A full eight-column region row. -/
def regRow0 : Row :=
  [Value.vInt 1, Value.vStr "AF-01", Value.vStr "01", Value.vStr "Badakhshan",
   Value.vInt 3, Value.vInt 5, Value.vNull, Value.vNull]

/-- A database holding one continent row and one region row. -/
def dbMixed : Db :=
  ⟨[[Value.vInt 1, Value.vStr "AS", Value.vStr "Asia"]], [], [regRow0], none⟩

/-- A sample country record as submitted by the user interface. -/
def cty0 : Country :=
  ⟨Value.vNull, Value.vStr "AB", Value.vStr "Abland", Value.vInt 1,
   Value.vNull, Value.vNull⟩

/-- A sample region record as submitted by the user interface. -/
def reg0 : Region :=
  ⟨Value.vNull, Value.vStr "AB-01", Value.vStr "01", Value.vStr "Abtown",
   Value.vInt 1, Value.vInt 2, Value.vNull, Value.vNull⟩

/-- A sample continent record as submitted by the user interface. -/
def cont0 : Continent := ⟨Value.vNull, Value.vStr "OC", Value.vStr "Oceania"⟩

/-! Claim theorems. -/

/-- C1: on the success path of open_database the code assigns the connection
and then evaluates the never-assigned db_path attribute, so it raises
AttributeError and yields no DatabaseOpened event at all, contradicting the
claim that a successful open yields exactly one DatabaseOpened(path); the
failure half of the claim does hold: a connect failure yields exactly one
DatabaseOpenFailed(message) and leaves the connection unset. -/
theorem c1_open_database_success_raises :
    open_database initial_engine (some "geo.db") (Except.ok db0)
      = ⟨[], ⟨some db0, none⟩, some (PyErr.attrErr "db_path")⟩
  ∧ open_database initial_engine (some "geo.db")
        (Except.error "unable to open database file")
      = ⟨[Event.databaseOpenFailed "unable to open database file"],
         initial_engine, none⟩ :=
  ⟨rfl, rfl⟩

/-- C2 counterexample: with no connection open, all four country handlers
yield zero events, leave the state unchanged and raise nothing, exactly like
the continent and region handlers, refuting the claim that the country
search, load and save handlers behave differently from yielding nothing. -/
theorem c2_counterexample :
    search_countries initial_engine (some "AB") (some "Ab")
      = ⟨[], initial_engine, none⟩
  ∧ load_country initial_engine (Value.vInt 1) = ⟨[], initial_engine, none⟩
  ∧ save_new_country initial_engine cty0 = ⟨[], initial_engine, none⟩
  ∧ save_country initial_engine cty0 = ⟨[], initial_engine, none⟩ :=
  ⟨rfl, rfl, rfl, rfl⟩

/-- C2 amended: when no connection is open, every continent-family,
country-family and region-family handler (search, load, save-new,
save-existing) yields zero events, leaves the engine unchanged and raises
nothing; the country handlers guard the no-connection case exactly like the
others. -/
theorem c2_no_connection_all_handlers_noop (eng : Engine)
    (h : eng.connection = none) :
    (∀ code nm, search_continents eng code nm = ⟨[], eng, none⟩)
  ∧ (∀ idv, load_continent eng idv = ⟨[], eng, none⟩)
  ∧ (∀ c, save_new_continent eng c = ⟨[], eng, none⟩)
  ∧ (∀ c, save_continent eng c = ⟨[], eng, none⟩)
  ∧ (∀ code nm, search_countries eng code nm = ⟨[], eng, none⟩)
  ∧ (∀ idv, load_country eng idv = ⟨[], eng, none⟩)
  ∧ (∀ c, save_new_country eng c = ⟨[], eng, none⟩)
  ∧ (∀ c, save_country eng c = ⟨[], eng, none⟩)
  ∧ (∀ code lc nm, search_regions eng code lc nm = ⟨[], eng, none⟩)
  ∧ (∀ idv, load_region eng idv = ⟨[], eng, none⟩)
  ∧ (∀ rg, save_new_region eng rg = ⟨[], eng, none⟩)
  ∧ (∀ rg, save_region eng rg = ⟨[], eng, none⟩) := by
  refine ⟨?_, ?_, ?_, ?_, ?_, ?_, ?_, ?_, ?_, ?_, ?_, ?_⟩ <;> intros <;>
    simp [search_continents, load_continent, save_new_continent, save_continent,
      search_countries, load_country, save_new_country, save_country,
      search_regions, load_region, save_new_region, save_region, h]

/-- C2 witness: the amended statement applied to the freshly initialized
engine, whose connection is unset. -/
theorem c2_witness :
    initial_engine.connection = none
  ∧ search_regions initial_engine none none none
      = ⟨[], initial_engine, none⟩ :=
  ⟨rfl, (c2_no_connection_all_handlers_noop initial_engine
    rfl).2.2.2.2.2.2.2.2.1 none none none⟩

/-- C6: with a connection open and the storage engine reporting an error on
the insert, save_new_continent yields exactly one SaveContinentFailed event
and save_new_region yields exactly one SaveRegionFailed event, both catching
the error, while save_new_country has no failure handling, yields nothing,
and lets the sqlite3.Error propagate uncaught to the caller. -/
theorem c6_insert_fault_handling (eng : Engine) (db : Db) (m : String)
    (c : Continent) (rg : Region) (cty : Country)
    (hc : eng.connection = some db) (hf : db.fault = some m) :
    save_new_continent eng c = ⟨[Event.saveContinentFailed m], eng, none⟩
  ∧ save_new_region eng rg = ⟨[Event.saveRegionFailed m], eng, none⟩
  ∧ save_new_country eng cty = ⟨[], eng, some (PyErr.sqlErr m)⟩ := by
  refine ⟨?_, ?_, ?_⟩ <;>
    simp [save_new_continent, save_new_region, save_new_country, hc, hf]

/-- C6 witness: the statement applied to an engine whose open database
reports a constraint violation. -/
theorem c6_witness :
    save_new_country ⟨some ⟨[], [], [], some "UNIQUE constraint failed"⟩, none⟩
      cty0
      = ⟨[], ⟨some ⟨[], [], [], some "UNIQUE constraint failed"⟩, none⟩,
         some (PyErr.sqlErr "UNIQUE constraint failed")⟩ :=
  (c6_insert_fault_handling
    ⟨some ⟨[], [], [], some "UNIQUE constraint failed"⟩, none⟩
    ⟨[], [], [], some "UNIQUE constraint failed"⟩
    "UNIQUE constraint failed" cont0 reg0 cty0 rfl rfl).2.2

/-- C8: for every CloseDatabase request, if a connection is open the handler
closes it, clears the handle and yields exactly one DatabaseClosed event; if
no connection is open it yields zero events and leaves the engine state
unchanged. -/
theorem c8_close_database (eng : Engine) :
    (∀ db, eng.connection = some db →
      close_database eng
        = ⟨[Event.databaseClosed], { eng with connection := none }, none⟩)
  ∧ (eng.connection = none → close_database eng = ⟨[], eng, none⟩) := by
  constructor
  · intro db hdb
    simp [close_database, hdb]
  · intro h
    simp [close_database, h]

/-- C8 witness: closing with a connection open clears the handle and yields
the single DatabaseClosed event. -/
theorem c8_witness :
    close_database ⟨some db0, none⟩
      = ⟨[Event.databaseClosed], ⟨none, none⟩, none⟩ :=
  (c8_close_database ⟨some db0, none⟩).1 db0 rfl

lemma load_continent_events_le_one (eng : Engine) (idv : Value) :
    (load_continent eng idv).events.length ≤ 1 := by
  unfold load_continent
  split
  · simp
  · split
    · simp
    · split
      · split <;> simp
      · simp

lemma load_country_events_le_one (eng : Engine) (idv : Value) :
    (load_country eng idv).events.length ≤ 1 := by
  unfold load_country
  split
  · simp
  · split
    · simp
    · split
      · split <;> simp
      · simp

lemma load_region_events_le_one (eng : Engine) (idv : Value) :
    (load_region eng idv).events.length ≤ 1 := by
  unfold load_region
  split
  · simp
  · split
    · simp
    · split
      · split <;> simp
      · simp

/-- C3: with a connection open and a well-formed schema, every load handler
fetches by primary key; a row with the requested identifier yields exactly
one loaded event, a missing identifier yields exactly one Error event whose
message names the entity and the identifier, and in every case, whatever the
engine state, at most one response event is produced. -/
theorem c3_load_by_identifier (eng : Engine) (db : Db) (i : Int)
    (hc : eng.connection = some db) (hf : db.fault = none)
    (hwf : wf_db db = true) :
    ((findRow db.continents (Value.vInt i)).isSome = true →
      ∃ c, load_continent eng (Value.vInt i)
        = ⟨[Event.continentLoaded c], eng, none⟩)
  ∧ (findRow db.continents (Value.vInt i) = none →
      load_continent eng (Value.vInt i)
        = ⟨[Event.errorEvent
            ("Continent with ID " ++ pyStr (Value.vInt i) ++ " not found")],
           eng, none⟩)
  ∧ ((findRow db.country (Value.vInt i)).isSome = true →
      ∃ c, load_country eng (Value.vInt i)
        = ⟨[Event.countryLoaded c], eng, none⟩)
  ∧ (findRow db.country (Value.vInt i) = none →
      load_country eng (Value.vInt i)
        = ⟨[Event.errorEvent
            ("Country with ID " ++ pyStr (Value.vInt i) ++ " not found")],
           eng, none⟩)
  ∧ ((findRow db.regions (Value.vInt i)).isSome = true →
      ∃ rg, load_region eng (Value.vInt i)
        = ⟨[Event.regionLoaded rg], eng, none⟩)
  ∧ (findRow db.regions (Value.vInt i) = none →
      load_region eng (Value.vInt i)
        = ⟨[Event.errorEvent
            ("Region with ID " ++ pyStr (Value.vInt i) ++ " not found")],
           eng, none⟩)
  ∧ (∀ (eng2 : Engine) (idv : Value),
      (load_continent eng2 idv).events.length ≤ 1
      ∧ (load_country eng2 idv).events.length ≤ 1
      ∧ (load_region eng2 idv).events.length ≤ 1) := by
  refine ⟨?_, ?_, ?_, ?_, ?_, ?_, ?_⟩
  · intro hs
    rw [Option.isSome_iff_exists] at hs
    obtain ⟨r, hr⟩ := hs
    have hmem : r ∈ db.continents := by
      have := hr
      unfold findRow at this
      exact List.mem_of_find?_eq_some this
    obtain ⟨a, b, c, rfl⟩ :=
      List.length_eq_three.mp (wf_db_continents db hwf _ hmem)
    exact ⟨⟨a, b, c⟩,
      by simp [load_continent, hc, hf, hr, continent_of_row_triple]⟩
  · intro hnone
    simp [load_continent, hc, hf, hnone]
  · intro hs
    rw [Option.isSome_iff_exists] at hs
    obtain ⟨r, hr⟩ := hs
    have hmem : r ∈ db.country := by
      have := hr
      unfold findRow at this
      exact List.mem_of_find?_eq_some this
    obtain ⟨cc, hcc⟩ :=
      mkCountryArgs_of_length_six r (wf_db_country db hwf _ hmem)
    exact ⟨cc, by simp [load_country, hc, hf, hr, hcc]⟩
  · intro hnone
    simp [load_country, hc, hf, hnone]
  · intro hs
    rw [Option.isSome_iff_exists] at hs
    obtain ⟨r, hr⟩ := hs
    have hmem : r ∈ db.regions := by
      have := hr
      unfold findRow at this
      exact List.mem_of_find?_eq_some this
    obtain ⟨rg, hrg⟩ :=
      mkRegionArgs_of_length_eight r (wf_db_regions db hwf _ hmem)
    exact ⟨rg, by simp [load_region, hc, hf, hr, hrg]⟩
  · intro hnone
    simp [load_region, hc, hf, hnone]
  · intro eng2 idv
    exact ⟨load_continent_events_le_one eng2 idv,
      load_country_events_le_one eng2 idv,
      load_region_events_le_one eng2 idv⟩

/-- C3 witness: loading a missing identifier from a database holding one
continent row yields exactly the Error event naming the identifier. -/
theorem c3_witness :
    wf_db dbOneContinent = true
  ∧ load_continent ⟨some dbOneContinent, none⟩ (Value.vInt 7)
      = ⟨[Event.errorEvent
          ("Continent with ID " ++ pyStr (Value.vInt 7) ++ " not found")],
         ⟨some dbOneContinent, none⟩, none⟩ :=
  ⟨by decide,
   (c3_load_by_identifier ⟨some dbOneContinent, none⟩ dbOneContinent 7
     rfl rfl (by decide)).2.1 rfl⟩

/-- The engine with the mixed sample database open. -/
def engMixed : Engine := ⟨some dbMixed, none⟩

/-- C4: evaluated at a database holding one continent row and one full
eight-column region row, a continent search with zero filters yields one
ContinentSearchResult per row and a filter matching nothing yields zero
events and no error, as the claim states; but a region search with zero
filters yields no RegionSearchResult at all and raises TypeError, because
the per-row construction supplies only seven of the eight required Region
fields, contradicting the one-event-per-row contract. -/
theorem c4_region_search_breaks_per_row_contract :
    search_continents engMixed none none
      = ⟨[Event.continentSearchResult
          ⟨Value.vInt 1, Value.vStr "AS", Value.vStr "Asia"⟩], engMixed, none⟩
  ∧ search_continents engMixed (some "ZZ") none = ⟨[], engMixed, none⟩
  ∧ dbMixed.regions.length = 1
  ∧ search_regions engMixed none none none
      = ⟨[], engMixed, some (PyErr.typeErr "Region() arity mismatch")⟩ := by
  refine ⟨by decide, by decide, rfl, by decide⟩

/-- C9 counterexample: on a database holding one full eight-column region
row, the region search handler produces no entity at all, raising TypeError
from its seven-argument Region construction, while the load handler yields
the entity built from all eight columns; so it is false that the search
handler produces an entity built from the first seven columns. -/
theorem c9_counterexample :
    search_regions engMixed none none none
      = ⟨[], engMixed, some (PyErr.typeErr "Region() arity mismatch")⟩
  ∧ load_region engMixed (Value.vInt 1)
      = ⟨[Event.regionLoaded
          ⟨Value.vInt 1, Value.vStr "AF-01", Value.vStr "01",
           Value.vStr "Badakhshan", Value.vInt 3, Value.vInt 5,
           Value.vNull, Value.vNull⟩], engMixed, none⟩ := by
  refine ⟨by decide, by decide⟩

/-- C9 amended: for every full eight-column region row, the search handler
passes only the first seven columns to the Region constructor, which
requires all eight fields, so the per-row construction raises TypeError and
produces no entity, while the load handler passes all eight columns and
obtains the full Region; the two handlers do not construct the Region value
the same way. -/
theorem c9_region_row_construction_mismatch (r : Row) (h : r.length = 8) :
    region_search_item r
      = Except.error (PyErr.typeErr "Region() arity mismatch")
  ∧ ∃ rg : Region, mkRegionArgs r = Except.ok rg
      ∧ [rg.region_id, rg.region_code, rg.local_code, rg.name,
         rg.continent_id, rg.country_id, rg.wikipedia_link, rg.keywords] = r := by
  obtain ⟨a, b, c, d, e, f, g, k, rfl⟩ := row_of_length_eight r h
  exact ⟨rfl, ⟨a, b, c, d, e, f, g, k⟩, rfl, rfl⟩

/-- C9 witness: the amended statement applied to the sample region row. -/
theorem c9_witness :
    regRow0.length = 8
  ∧ region_search_item regRow0
      = Except.error (PyErr.typeErr "Region() arity mismatch") :=
  ⟨rfl, (c9_region_row_construction_mismatch regRow0 rfl).1⟩

/-- C5: with a connection open and no storage error, save_new_continent
yields exactly one ContinentSaved event whose entity carries the
storage-assigned non-null identifier and the submitted code and name
unchanged, and loading that identifier from the resulting state yields
exactly one ContinentLoaded event carrying the very same record. -/
theorem c5_save_new_continent_roundtrip (eng : Engine) (db : Db)
    (c : Continent) (hc : eng.connection = some db) (hf : db.fault = none) :
    (save_new_continent eng c).events
      = [Event.continentSaved
          ⟨Value.vInt (nextId db.continents), c.continent_code, c.name⟩]
  ∧ (save_new_continent eng c).exc = none
  ∧ Value.vInt (nextId db.continents) ≠ Value.vNull
  ∧ load_continent (save_new_continent eng c).engine
        (Value.vInt (nextId db.continents))
      = ⟨[Event.continentLoaded
          ⟨Value.vInt (nextId db.continents), c.continent_code, c.name⟩],
         (save_new_continent eng c).engine, none⟩ := by
  have hres : save_new_continent eng c
      = ⟨[Event.continentSaved
          ⟨Value.vInt (nextId db.continents), c.continent_code, c.name⟩],
         { eng with connection := some { db with continents :=
           db.continents
             ++ [[Value.vInt (nextId db.continents), c.continent_code, c.name]] } },
         none⟩ := by
    simp [save_new_continent, hc, hf]
  have hfind : findRow
      (db.continents
        ++ [[Value.vInt (nextId db.continents), c.continent_code, c.name]])
      (Value.vInt (nextId db.continents))
      = some [Value.vInt (nextId db.continents), c.continent_code, c.name] :=
    findRow_append_fresh _ _ _
      (fun r hr => rowKeyIs_nextId db.continents r hr)
      (by simp [rowKeyIs, colv, valueSqlEq])
  refine ⟨by rw [hres], by rw [hres], by simp, ?_⟩
  rw [hres]
  simp [load_continent, hf, hfind, continent_of_row_triple]

/-- C5 witness: saving a new continent into the one-row database assigns
identifier 2 and reloading it returns the same record. -/
theorem c5_witness :
    (save_new_continent ⟨some dbOneContinent, none⟩ cont0).events
      = [Event.continentSaved
          ⟨Value.vInt 2, Value.vStr "OC", Value.vStr "Oceania"⟩]
  ∧ load_continent (save_new_continent ⟨some dbOneContinent, none⟩ cont0).engine
        (Value.vInt 2)
      = ⟨[Event.continentLoaded
          ⟨Value.vInt 2, Value.vStr "OC", Value.vStr "Oceania"⟩],
         (save_new_continent ⟨some dbOneContinent, none⟩ cont0).engine, none⟩ := by
  have h := c5_save_new_continent_roundtrip ⟨some dbOneContinent, none⟩
    dbOneContinent cont0 rfl rfl
  exact ⟨h.1, h.2.2.2⟩

lemma mkCountryArgs_countryRowOf (nid : Int) (c : Country) :
    mkCountryArgs (countryRowOf nid c)
      = Except.ok ⟨Value.vInt nid, c.country_code, c.name, c.continent_id,
          c.wikipedia_link, c.keywords⟩ := rfl

lemma mkRegionArgs_regionRowOf (nid : Int) (rg : Region) :
    mkRegionArgs (regionRowOf nid rg)
      = Except.ok ⟨Value.vInt nid, rg.region_code, rg.local_code, rg.name,
          rg.continent_id, rg.country_id, rg.wikipedia_link, rg.keywords⟩ := rfl

/-- C7: with a connection open and no storage error, save_new_country is the
load_country handler applied to the post-insert state with the
storage-assigned row identifier, so its success yields exactly one
CountryLoaded event carrying the inserted record, and save_new_region
likewise yields exactly one RegionLoaded event; and because the reload is
the Load handler, an identifier it cannot find yields exactly one Error
event naming the identifier rather than any saved-confirmation event. -/
theorem c7_save_new_delegates_to_load (eng : Engine) (db : Db)
    (cty : Country) (rg : Region)
    (hc : eng.connection = some db) (hf : db.fault = none) :
    save_new_country eng cty
      = load_country
          { eng with connection := some { db with country :=
              db.country ++ [countryRowOf (nextId db.country) cty] } }
          (Value.vInt (nextId db.country))
  ∧ (save_new_country eng cty).events
      = [Event.countryLoaded
          ⟨Value.vInt (nextId db.country), cty.country_code, cty.name,
           cty.continent_id, cty.wikipedia_link, cty.keywords⟩]
  ∧ (save_new_country eng cty).exc = none
  ∧ (save_new_region eng rg).events
      = (load_region
          { eng with connection := some { db with regions :=
              db.regions ++ [regionRowOf (nextId db.regions) rg] } }
          (Value.vInt (nextId db.regions))).events
  ∧ (save_new_region eng rg).events
      = [Event.regionLoaded
          ⟨Value.vInt (nextId db.regions), rg.region_code, rg.local_code,
           rg.name, rg.continent_id, rg.country_id, rg.wikipedia_link,
           rg.keywords⟩]
  ∧ (save_new_region eng rg).exc = none
  ∧ (∀ (eng2 : Engine) (db2 : Db) (idv : Value),
      eng2.connection = some db2 → db2.fault = none →
      findRow db2.country idv = none →
      load_country eng2 idv
        = ⟨[Event.errorEvent
            ("Country with ID " ++ pyStr idv ++ " not found")], eng2, none⟩)
  ∧ (∀ (eng2 : Engine) (db2 : Db) (idv : Value),
      eng2.connection = some db2 → db2.fault = none →
      findRow db2.regions idv = none →
      load_region eng2 idv
        = ⟨[Event.errorEvent
            ("Region with ID " ++ pyStr idv ++ " not found")], eng2, none⟩) := by
  have hfindc : findRow
      (db.country ++ [countryRowOf (nextId db.country) cty])
      (Value.vInt (nextId db.country))
      = some (countryRowOf (nextId db.country) cty) :=
    findRow_append_fresh _ _ _
      (fun r hr => rowKeyIs_nextId db.country r hr)
      (by simp [countryRowOf, rowKeyIs, colv, valueSqlEq])
  have hfindr : findRow
      (db.regions ++ [regionRowOf (nextId db.regions) rg])
      (Value.vInt (nextId db.regions))
      = some (regionRowOf (nextId db.regions) rg) :=
    findRow_append_fresh _ _ _
      (fun r hr => rowKeyIs_nextId db.regions r hr)
      (by simp [regionRowOf, rowKeyIs, colv, valueSqlEq])
  refine ⟨?_, ?_, ?_, ?_, ?_, ?_, ?_, ?_⟩
  · simp [save_new_country, hc, hf]
  · simp [save_new_country, hc, hf, load_country, hfindc,
      mkCountryArgs_countryRowOf]
  · simp [save_new_country, hc, hf, load_country, hfindc,
      mkCountryArgs_countryRowOf]
  · simp [save_new_region, hc, hf, load_region, hfindr,
      mkRegionArgs_regionRowOf]
  · simp [save_new_region, hc, hf, load_region, hfindr,
      mkRegionArgs_regionRowOf]
  · simp [save_new_region, hc, hf, load_region, hfindr,
      mkRegionArgs_regionRowOf]
  · intro eng2 db2 idv hc2 hf2 hn
    simp [load_country, hc2, hf2, hn]
  · intro eng2 db2 idv hc2 hf2 hn
    simp [load_region, hc2, hf2, hn]

/-- C7 witness: saving a new country into the empty database yields exactly
one CountryLoaded event carrying the inserted record under identifier 1. -/
theorem c7_witness :
    (save_new_country ⟨some db0, none⟩ cty0).events
      = [Event.countryLoaded
          ⟨Value.vInt 1, Value.vStr "AB", Value.vStr "Abland",
           Value.vInt 1, Value.vNull, Value.vNull⟩] :=
  (c7_save_new_delegates_to_load ⟨some db0, none⟩ db0 cty0 reg0
    rfl rfl).2.1

/-- C10: with a connection open and no storage error, save_continent yields
exactly one ContinentSaved event carrying the submitted record unchanged and
raises nothing, and when no stored row matches the submitted identifier the
update leaves the database state unchanged: no reload happens and no Error
event is produced. -/
theorem c10_save_continent_update_without_reload (eng : Engine) (db : Db)
    (c : Continent) (hc : eng.connection = some db) (hf : db.fault = none) :
    (save_continent eng c).events = [Event.continentSaved c]
  ∧ (save_continent eng c).exc = none
  ∧ (findRow db.continents c.continent_id = none →
      (save_continent eng c).engine = eng) := by
  obtain ⟨conn, dp⟩ := eng
  simp only at hc
  subst hc
  obtain ⟨tc, ty, tr, tf⟩ := db
  simp only at hf
  subst hf
  refine ⟨by simp [save_continent], by simp [save_continent], ?_⟩
  intro hnone
  simp only at hnone
  have hall : ∀ r ∈ tc, rowKeyIs r c.continent_id = false := by
    intro r hr
    unfold findRow at hnone
    have := List.find?_eq_none.mp hnone r hr
    simpa using this
  have hmap : tc.map
      (fun r => if rowKeyIs r c.continent_id then updContinentRow c r else r)
      = tc := by
    have h1 : tc.map
        (fun r => if rowKeyIs r c.continent_id then updContinentRow c r else r)
        = tc.map id :=
      List.map_congr_left (fun r hr => by simp [hall r hr])
    simpa using h1
  simp [save_continent, hmap]

/-- C10 witness: updating a continent whose identifier matches no stored row
still yields the single ContinentSaved event with the submitted record and
leaves the table untouched. -/
theorem c10_witness :
    (save_continent ⟨some dbOneContinent, none⟩
        ⟨Value.vInt 99, Value.vStr "XX", Value.vStr "Xland"⟩).events
      = [Event.continentSaved
          ⟨Value.vInt 99, Value.vStr "XX", Value.vStr "Xland"⟩]
  ∧ (save_continent ⟨some dbOneContinent, none⟩
        ⟨Value.vInt 99, Value.vStr "XX", Value.vStr "Xland"⟩).engine
      = ⟨some dbOneContinent, none⟩ := by
  have h := c10_save_continent_update_without_reload
    ⟨some dbOneContinent, none⟩ dbOneContinent
    ⟨Value.vInt 99, Value.vStr "XX", Value.vStr "Xland"⟩ rfl rfl
  exact ⟨h.1, h.2.2 (by decide)⟩
